import Mathlib

/-!
Shallow embedding of the core of `witrn_pd_sniffer.py`: the acquisition
worker (`data_collection_worker`), the bounded inter-process channels, the
consumer loop (`WITRNGUI._consume_queue_data`), the event log
(`WITRNGUI.add_data_item`), the rolling telemetry buffer and marker log
(`_reset_plot`, `_append_plot_point`, `_append_marker_event`), and the
adaptive refresh scheduler (`refresh_data_loop`, `_delayed_update_treeview`).

Python floats (timestamps, voltages, currents) are modelled as rationals.
A field extraction that may raise in Python (`try: ... except:`) is modelled
as an `Option` input: `none` means the extraction raised.  The opaque decoded
payload (`metadata`, owned by the external `witrnhid` decoder and never
inspected by the code modelled here) is an abstract type parameter `Pkg`.
-/

namespace Witrn

/-- One `put_nowait` call on a bounded `multiprocessing.Queue` of capacity
`cap`: when the queue already holds `cap` items, `queue.Full` is raised and
the worker's `except queue.Full: pass` discards the offered item (the newest
one), leaving the queue unchanged.  The call never blocks. -/
def putNowait {α : Type} (cap : ℕ) (q : List α) (x : α) : List α :=
  if q.length < cap then q ++ [x] else q

/-- A burst of `put_nowait` calls with no intervening consumer activity. -/
def publishBurst {α : Type} (cap : ℕ) (q : List α) (xs : List α) : List α :=
  xs.foldl (putNowait cap) q

/-- Capacity of the protocol-event channel: `Queue(maxsize=1000)`. -/
def data_queue_maxsize : ℕ := 1000

/-- Capacity of the telemetry channel: `Queue(maxsize=500)`. -/
def iv_queue_maxsize : ℕ := 500

/-- Raw fields of a `general` (telemetry) record as read from the device;
each field is the result of `float(pkg[...].value()[:-1])`, with `none`
modelling a conversion that raises. -/
structure RawGeneral where
  Current : Option ℚ
  VBus : Option ℚ
  CC1 : Option ℚ
  CC2 : Option ℚ
  Dp : Option ℚ
  Dn : Option ℚ
deriving DecidableEq

/-- The dict published on `iv_queue` for each telemetry sample. -/
structure IVData where
  timestamp : ℚ
  voltage : ℚ
  current : ℚ
  power : ℚ
  cc1 : ℚ
  cc2 : ℚ
  dp : ℚ
  dn : ℚ
  update_plot : Bool
  update_iv_info : Bool
deriving DecidableEq

/-- Processing of one `general` record in `data_collection_worker`
(lines 120-175): each numeric field degrades to `0.0` when its conversion
raises; `update_iv_info = (now - last_general_timestamp >= 0.1)`;
`update_plot` is always `True`; `last_general_timestamp` is advanced to
`now` exactly when `update_iv_info` is set.  Returns the published record
together with the new `last_general_timestamp`. -/
def process_general (g : RawGeneral) (current_time now last_general_timestamp : ℚ) :
    IVData × ℚ :=
  let current := g.Current.getD 0
  let voltage := g.VBus.getD 0
  let power := |current * voltage|
  let cc1 := g.CC1.getD 0
  let cc2 := g.CC2.getD 0
  let dp := g.Dp.getD 0
  let dn := g.Dn.getD 0
  let update_iv_info := decide ((1 : ℚ)/10 ≤ now - last_general_timestamp)
  (⟨current_time, voltage, current, power, cc1, cc2, dp, dn, true, update_iv_info⟩,
   if update_iv_info then now else last_general_timestamp)

/-- Raw fields of a `pd` (protocol) record; `none` on an `Option` field
models the corresponding extraction raising.  `sop` (`pkg["SOP*"].value()`,
line 183) is the one extraction NOT wrapped in `try/except`.  `rev_raw` is
`pkg["Message Header"][4].value()[4:]` before the `'rved'` check. -/
structure RawPD (Pkg : Type) where
  timestamp_str : String
  sop : Option String
  rev_raw : Option String
  ppr : Option String
  pdr : Option String
  msg_type : Option String
  pkg : Pkg
  is_pdo : Bool
  is_rdo : Bool
deriving DecidableEq

/-- Revision decoding (lines 184-189): a raised extraction or the residue
string of a reserved value maps to `None`. -/
def decode_rev (r : Option String) : Option String :=
  match r with
  | none => none
  | some v => if v = ("rved") then none else some v

/-- The dict published on `data_queue` for each protocol record
(lines 212-226). -/
structure PDData (Pkg : Type) where
  timestamp : String
  time_sec : ℚ
  sop : String
  rev : Option String
  ppr : Option String
  pdr : Option String
  msg_type : Option String
  data : Pkg
  is_pdo : Bool
  is_rdo : Bool
  last_pdo : Option Pkg
  last_rdo : Option Pkg
deriving DecidableEq

/-- An item travelling on `data_queue`: either a published protocol record
or an error sentinel dict of the shape `{'error': msg}`. -/
inductive QItem (Pkg : Type) where
  | err (msg : String)
  | pd (d : PDData Pkg)
deriving DecidableEq

/-- The worker-local mutable state of `data_collection_worker`, together with
the contents of the two channels it publishes to. -/
structure WorkerState (Pkg : Type) where
  last_pdo : Option Pkg
  last_rdo : Option Pkg
  last_general_timestamp : ℚ
  data_queue : List (QItem Pkg)
  iv_queue : List IVData
deriving DecidableEq

/-- A raw record returned by `auto_unpack`, classified by `pkg.field()`. -/
inductive RawRecord (Pkg : Type) where
  | general (g : RawGeneral)
  | pd (p : RawPD Pkg)
deriving DecidableEq

/-- One successful polling iteration of `data_collection_worker`
(lines 113-228) on an already-read record.  `pause_flag` is the shared
`Value('i')`; `current_time` is the `time.time()` taken right after the
read and `now` the one taken before the summary rate-limit decision.
A `general` record is processed regardless of the pause flag; a `pd`
record is skipped entirely when paused (`continue`, line 180).  A `pd`
record whose `SOP*` extraction raises (modelled `sop = none`) aborts the
iteration through the outer exception handler before any state is touched. -/
def data_collection_step {Pkg : Type} (pause_flag : ℤ) (s : WorkerState Pkg)
    (rec : RawRecord Pkg) (current_time now : ℚ) : WorkerState Pkg :=
  match rec with
  | .general g =>
      let r := process_general g current_time now s.last_general_timestamp
      { s with iv_queue := putNowait iv_queue_maxsize s.iv_queue r.1,
               last_general_timestamp := r.2 }
  | .pd p =>
      if pause_flag = 1 then s
      else
        match p.sop with
        | none => s
        | some sopv =>
            let rev := decode_rev p.rev_raw
            let last_pdo := if p.is_pdo then some p.pkg else s.last_pdo
            let last_rdo := if p.is_rdo then some p.pkg else s.last_rdo
            { s with
              last_pdo := last_pdo
              last_rdo := last_rdo
              data_queue := putNowait data_queue_maxsize s.data_queue
                (.pd ⟨p.timestamp_str, current_time, sopv, rev, p.ppr, p.pdr,
                      p.msg_type, p.pkg, p.is_pdo, p.is_rdo, last_pdo, last_rdo⟩) }

/-- A trace of `general` records: each entry carries the record and the two
`time.time()` readings of its iteration.  Returns each published record
paired with the `now` reading used for its rate-limit decision. -/
def run_general : ℚ → List (RawGeneral × ℚ × ℚ) → List (IVData × ℚ)
  | _, [] => []
  | last, (g, tc, now) :: rest =>
      let r := process_general g tc now last
      (r.1, now) :: run_general r.2 rest

/-- Outcome of the worker's per-iteration exception handler. -/
inductive WorkerErrAction where
  | publishSentinelAndExit
  | sleepRetry
deriving DecidableEq

/-- Whether `needle` occurs at the very start of `hay`. -/
def startsWithList {α : Type} [DecidableEq α] : List α → List α → Bool
  | [], _ => true
  | _ :: _, [] => false
  | a :: as, b :: bs => if a = b then startsWithList as bs else false

/-- Python's substring test `needle in hay`, on lists of characters. -/
def containsSub {α : Type} [DecidableEq α] (needle : List α) : List α → Bool
  | [] => needle.isEmpty
  | b :: bs => startsWithList needle (b :: bs) || containsSub needle bs

/-- Classification of a caught exception (lines 230-241):
`'read error' in str(e).lower()` selects the unrecoverable path. -/
def classify_read_error (err : String) : WorkerErrAction :=
  if containsSub (("read error").toList) (err.toList.map Char.toLower) then
    .publishSentinelAndExit
  else
    .sleepRetry

/-- The worker's exception handler: on an unrecoverable read error it
publishes the `device_disconnected` sentinel to the protocol channel and
breaks out of the loop (`Bool` result `true` = loop exited); on any other
error it sleeps 10 ms and retries, leaving all state unchanged. -/
def worker_on_exception {Pkg : Type} (err : String) (s : WorkerState Pkg) :
    WorkerState Pkg × Bool :=
  match classify_read_error err with
  | .publishSentinelAndExit =>
      ({ s with data_queue := putNowait data_queue_maxsize s.data_queue
                  (.err ("device_disconnected")) }, true)
  | .sleepRetry => (s, false)

/-- `maxlen` of the rolling plot deques (`deque(maxlen=60000)`). -/
def plot_maxlen : ℕ := 60000

/-- `maxlen` of the marker-event deque (`deque(maxlen=3600)`). -/
def marker_maxlen : ℕ := 3600

/-- Appending to a `collections.deque` with a `maxlen`: when the deque is
full the oldest (leftmost) element is evicted. -/
def dequeAppend {α : Type} (maxlen : ℕ) (q : List α) (x : α) : List α :=
  if q.length < maxlen then q ++ [x] else q.tail ++ [x]

/-- The rolling telemetry buffer and marker log slice of `WITRNGUI` state. -/
structure PlotState where
  plot_times : List ℚ
  plot_voltage : List ℚ
  plot_current : List ℚ
  plot_start_time : Option ℚ
  marker_events : List (ℚ × String)
deriving DecidableEq

/-- `WITRNGUI._reset_plot` (state-relevant part, lines 1239-1267): clears the
three rolling buffers, resets the relative-time baseline to `None`, and
clears the marker log. -/
def reset_plot (_s : PlotState) : PlotState :=
  { plot_times := []
    plot_voltage := []
    plot_current := []
    plot_start_time := none
    marker_events := [] }

/-- `WITRNGUI._append_plot_point` (lines 1356-1368): lazily establishes the
relative-time baseline on the first sample, then appends the relative time
and both analog channels. -/
def append_plot_point (s : PlotState) (t_sec v i : ℚ) : PlotState :=
  let start :=
    match s.plot_start_time with
    | none => t_sec
    | some b => b
  { s with
    plot_start_time := some start
    plot_times := dequeAppend plot_maxlen s.plot_times (t_sec - start)
    plot_voltage := dequeAppend plot_maxlen s.plot_voltage v
    plot_current := dequeAppend plot_maxlen s.plot_current i }

/-- `WITRNGUI._append_marker_event` (lines 1370-1381): rejects kinds other
than `'pdo'`/`'rdo'`, and records a marker only when the relative-time
baseline has been established. -/
def append_marker_event (s : PlotState) (t_sec : ℚ) (kind : String) : PlotState :=
  if kind ≠ ("pdo") ∧ kind ≠ ("rdo") then s
  else
    match s.plot_start_time with
    | none => s
    | some b => { s with marker_events :=
                    dequeAppend marker_maxlen s.marker_events (t_sec - b, kind) }

/-- One row of the event log, mirroring the Python `DataItem` constructor
argument order `(index, timestamp, sop, rev, ppr, pdr, msg_type, data,
time_sec)`. -/
structure DataItem (Pkg : Type) where
  index : ℕ
  timestamp : String
  sop : String
  rev : Option String
  ppr : Option String
  pdr : Option String
  msg_type : Option String
  data : Option Pkg
  time_sec : Option ℚ
deriving DecidableEq

/-- The slice of `WITRNGUI` state touched by the consumer loop, the event
log and the connection lifecycle.  `pause_flag` is the shared `Value('i')`
(`none` when the IPC objects have not been created). -/
structure GuiState (Pkg : Type) where
  data_list : List (DataItem Pkg)
  is_paused : Bool
  device_open : Bool
  awaiting_connection_ack : Bool
  autostart_after_connect : Bool
  pause_flag : Option ℤ
  last_pdo : Option Pkg
  last_rdo : Option Pkg
  plot : PlotState
deriving DecidableEq

/-- `WITRNGUI.add_data_item` (lines 2057-2079): suppressed while paused
unless forced; otherwise appends a `DataItem` whose sequence index is the
current log length plus one.  `now_str` stands for the
`datetime.now().strftime(...)` fallback used when `timestamp` is falsy. -/
def add_data_item {Pkg : Type} (s : GuiState Pkg) (sop : String)
    (rev ppr pdr msg_type : Option String) (data : Option Pkg)
    (timestamp : Option String) (time_sec : Option ℚ) (force : Bool)
    (now_str : String) : GuiState Pkg :=
  if force = false ∧ s.is_paused = true then s
  else
    let ts :=
      match timestamp with
      | none => now_str
      | some t => if t = ("") then now_str else t
    { s with data_list := s.data_list ++
        [⟨s.data_list.length + 1, ts, sop, rev, ppr, pdr, msg_type, data, time_sec⟩] }

/-- The connection-acknowledgement block of `WITRNGUI._consume_queue_data`
(lines 2144-2164 for the protocol queue, 2205-2226 for the telemetry queue;
both are identical): the first item consumed while `device_open` and
`awaiting_connection_ack` clears the awaiting flag and, when an auto-start
was requested, resumes collection (= clears `is_paused`, writes 0 to the
shared pause flag when present, and clears the auto-start request). -/
def connection_ack {Pkg : Type} (s : GuiState Pkg) : GuiState Pkg :=
  if s.device_open = true ∧ s.awaiting_connection_ack = true then
    let s1 := { s with awaiting_connection_ack := false }
    if s1.autostart_after_connect = true then
      { s1 with
        is_paused := false
        pause_flag :=
          match s1.pause_flag with
          | none => none
          | some _ => some 0
        autostart_after_connect := false }
    else s1
  else s

/-- `WITRNGUI._handle_device_disconnect` (state-relevant part, lines
2266-2275): pauses, marks the device closed, clears the handshake flags and
drops the tracked capability/request references. -/
def handle_device_disconnect {Pkg : Type} (s : GuiState Pkg) : GuiState Pkg :=
  { s with
    is_paused := true
    device_open := false
    awaiting_connection_ack := false
    autostart_after_connect := false
    last_pdo := none
    last_rdo := none }

/-- `WITRNGUI._handle_connection_failed` (state-relevant part, lines
2304-2317). -/
def handle_connection_failed {Pkg : Type} (s : GuiState Pkg) : GuiState Pkg :=
  { s with
    device_open := false
    is_paused := true
    awaiting_connection_ack := false
    autostart_after_connect := false }

/-- An item drained by the consumer loop, tagged with the channel it came
from. -/
inductive ConsumedItem (Pkg : Type) where
  | fromDataQueue (q : QItem Pkg)
  | fromIvQueue (d : IVData)
deriving DecidableEq

/-- Whether an item is an error sentinel (`'error' in pd_data`). -/
def isErrItem {Pkg : Type} : ConsumedItem Pkg → Bool
  | .fromDataQueue (.err _) => true
  | _ => false

/-- Processing of one drained item by `WITRNGUI._consume_queue_data`
(lines 2130-2250), state-relevant part.  Protocol items: error sentinels
dispatch to the recovery handlers; otherwise the connection-ack block runs,
the item is appended to the event log, and a capability/request item updates
the tracked reference and appends a marker.  Telemetry items: the same
connection-ack block runs, then the sample is forwarded to the rolling
buffer when `update_plot` is set. -/
def consume_one {Pkg : Type} (s : GuiState Pkg) (item : ConsumedItem Pkg)
    (now_str : String) : GuiState Pkg :=
  match item with
  | .fromDataQueue (.err e) =>
      if e = ("device_disconnected") then handle_device_disconnect s
      else if e.startsWith ("connection_failed") then handle_connection_failed s
      else s
  | .fromDataQueue (.pd d) =>
      let s1 := connection_ack s
      let s2 := add_data_item s1 d.sop d.rev d.ppr d.pdr d.msg_type (some d.data)
                  (some d.timestamp) (some d.time_sec) false now_str
      let s3 :=
        if d.is_pdo then
          { s2 with last_pdo := d.last_pdo,
                    plot := append_marker_event s2.plot d.time_sec ("pdo") }
        else s2
      if d.is_rdo then
        { s3 with last_rdo := d.last_rdo,
                  plot := append_marker_event s3.plot d.time_sec ("rdo") }
      else s3
  | .fromIvQueue d =>
      let s1 := connection_ack s
      if d.update_plot then
        { s1 with plot := append_plot_point s1.plot d.timestamp d.voltage d.current }
      else s1

/-- Whether processing `item` in state `s` fires the connection-ack
transition (the `device_open and awaiting_connection_ack` test guarding
lines 2145 and 2207; error sentinels break out before the test). -/
def ack_fires {Pkg : Type} (s : GuiState Pkg) (item : ConsumedItem Pkg) : Bool :=
  if isErrItem item then false
  else s.device_open && s.awaiting_connection_ack

/-- Number of times the connection-ack transition fires while consuming a
sequence of items. -/
def ack_count {Pkg : Type} (now_str : String) :
    GuiState Pkg → List (ConsumedItem Pkg) → ℕ
  | _, [] => 0
  | s, it :: rest =>
      (if ack_fires s it then 1 else 0) +
        ack_count now_str (consume_one s it now_str) rest

/-- Minimum refresh interval (seconds) as a function of the event count
(`refresh_data_loop`, lines 3039-3048). -/
def minInterval (count : ℕ) : ℚ :=
  if count < 1000 then 1/10
  else if count < 5000 then 3/10
  else if count < 10000 then 1/2
  else if count < 20000 then 1
  else 2

/-- The scheduler slice of `WITRNGUI` state: `last_treeview_update_time`,
`pending_treeview_update`, the loop-local `last_data_count`, and a ghost
counter `outstanding` of `root.after`-scheduled `_delayed_update_treeview`
callbacks that have not fired yet (not a Python variable; it makes the
"at most one deferred refresh pending" property stateable). -/
structure SchedState where
  last_treeview_update_time : ℚ
  pending_treeview_update : Bool
  last_data_count : ℕ
  outstanding : ℕ
deriving DecidableEq

/-- One check tick of `refresh_data_loop` (lines 3034-3064) at wall-clock
time `now` with event count `count`.  Returns the new state and, when a
deferred refresh was scheduled, the `root.after` delay in milliseconds
(`int((min_interval - time_since_last_update) * 1000)`). -/
def refresh_check_tick (s : SchedState) (now : ℚ) (count : ℕ) :
    SchedState × Option ℕ :=
  if count ≠ s.last_data_count then
    let min_interval := minInterval count
    let time_since_last_update := now - s.last_treeview_update_time
    if min_interval ≤ time_since_last_update then
      ({ s with last_treeview_update_time := now, last_data_count := count }, none)
    else if s.pending_treeview_update = false then
      ({ s with pending_treeview_update := true, outstanding := s.outstanding + 1 },
       some (Int.toNat ⌊(min_interval - time_since_last_update) * 1000⌋))
    else (s, none)
  else (s, none)

/-- `WITRNGUI._delayed_update_treeview` (lines 3085-3093), fired at
wall-clock time `now`: the outstanding callback is consumed; if a refresh
is pending it is performed and the refresh time recorded. -/
def delayed_update_treeview (s : SchedState) (now : ℚ) : SchedState :=
  let s1 := { s with outstanding := s.outstanding - 1 }
  if s1.pending_treeview_update = true then
    { s1 with pending_treeview_update := false, last_treeview_update_time := now }
  else s1

/-- Scheduler invariant: a deferred refresh callback is outstanding exactly
when the pending flag is set. -/
def schedInv (s : SchedState) : Prop :=
  s.outstanding = if s.pending_treeview_update then 1 else 0

/-! Concrete sample values used by the witness theorems. -/

/-- A fully well-formed raw telemetry record. -/
def sampleGeneral : RawGeneral :=
  ⟨some 1, some 5, some (1/2), some 0, some (3/5), some 0⟩

/-- A telemetry record whose `VBus` conversion raises. -/
def sampleGeneralBad : RawGeneral :=
  ⟨some 1, none, some (1/2), some 0, some (3/5), some 0⟩

/-- A well-formed raw protocol record over the trivial payload type. -/
def samplePD : RawPD ℕ :=
  ⟨"12:00:00.000", some ("SOP"), none, some ("Source"), some ("DFP"),
   some ("Source_Capabilities"), 7, true, false⟩

/-- A raw protocol record whose `SOP*` extraction raises. -/
def samplePDNoSop : RawPD ℕ :=
  ⟨"12:00:00.000", none, some ("3.0"), some ("Source"), some ("DFP"),
   some ("Source_Capabilities"), 7, true, false⟩

/-- An idle worker state with both channels empty. -/
def sampleWorker : WorkerState ℕ := ⟨none, none, 0, [], []⟩

/-- A published telemetry sample flagged for plot update only. -/
def sampleIV : IVData := ⟨10, 5, 1, 5, 0, 0, 0, 0, true, false⟩

/-- A GUI state that has just opened the device and awaits the
connection acknowledgement with auto-start requested. -/
def sampleGuiAwaiting : GuiState ℕ :=
  ⟨[], true, true, true, true, some 1, none, none, ⟨[], [], [], none, []⟩⟩

/-- A GUI state collecting normally with one logged row. -/
def sampleGuiOpen : GuiState ℕ :=
  ⟨[⟨1, "12:00:00.000", "SOP", none, none, none, none, none, some 10⟩],
   false, true, false, false, some 0, some 3, none, ⟨[0], [5], [1], some 10, []⟩⟩

/-- A scheduler state with no pending deferred refresh. -/
def sampleSched : SchedState := ⟨10, false, 50, 0⟩

/-- An empty plot state, as after `_reset_plot`. -/
def sampleEmptyPlot : PlotState := ⟨[], [], [], none, []⟩

/-- The event-log index invariant: the stored indices are exactly
`1, 2, ..., length`. -/
def indices_ok {Pkg : Type} (l : List (DataItem Pkg)) : Prop :=
  l.map (fun d => d.index) = List.range' 1 l.length

/-! Theorems. -/

theorem publishBurst_append_take {α : Type} (cap : ℕ) :
    ∀ (xs : List α) (q : List α),
      publishBurst cap q xs = q ++ xs.take (cap - q.length) := by
  intro xs
  induction xs with
  | nil => intro q; simp [publishBurst]
  | cons x rest ih =>
      intro q
      by_cases h : q.length < cap
      · have hstep : publishBurst cap q (x :: rest) = publishBurst cap (q ++ [x]) rest := by
          simp [publishBurst, putNowait, h]
        rw [hstep, ih]
        have hc : cap - q.length = (cap - (q ++ [x]).length) + 1 := by
          simp only [List.length_append, List.length_singleton]
          omega
        rw [hc, List.take_succ_cons]
        simp
      · have hstep : publishBurst cap q (x :: rest) = publishBurst cap q rest := by
          simp [publishBurst, putNowait, h]
        rw [hstep, ih]
        have hz : cap - q.length = 0 := by omega
        simp [hz]

theorem range'_snoc (s n : ℕ) : List.range' s (n + 1) = List.range' s n ++ [s + n] := by
  induction n generalizing s with
  | zero => simp
  | succ n ih =>
      rw [List.range'_succ, ih (s + 1), List.range'_succ]
      simp
      omega

/-- C2 counterexample: with the consumer paused, a burst into a bounded
channel of capacity 100 retains the FIRST at most 100 offered items, not the
most recent ones — publishing the 101 items `0, ..., 100` retains
`0, ..., 99`, which differs from the most recent 100 items `1, ..., 100`. -/
theorem c2_counterexample :
    publishBurst 100 ([] : List ℕ) (List.range 101) = List.range 100 ∧
    publishBurst 100 ([] : List ℕ) (List.range 101) ≠ (List.range 101).drop 1 := by
  have h1 : publishBurst 100 ([] : List ℕ) (List.range 101) = List.range 100 := by
    rw [publishBurst_append_take]
    simp [List.take_range]
  refine ⟨h1, ?_⟩
  rw [h1]
  decide

/-- C2 (amended): a publish attempt against a full bounded channel discards
the offered item and leaves the channel unchanged (drop-newest-on-full,
never blocking); a burst of `xs` published into an initially empty channel
of capacity `cap` with the consumer paused retains exactly the first
(oldest) at most `cap` items of the burst. -/
theorem c2_drop_on_full {α : Type} (cap : ℕ) (q : List α) (x : α) (xs : List α)
    (hfull : cap ≤ q.length) :
    putNowait cap q x = q ∧
    publishBurst cap [] xs = xs.take cap ∧
    (publishBurst cap [] xs).length = min cap xs.length := by
  have hnot : ¬q.length < cap := by omega
  refine ⟨by simp [putNowait, hnot], ?_, ?_⟩
  · rw [publishBurst_append_take]; simp
  · rw [publishBurst_append_take]; simp

theorem c2_drop_on_full_witness :
    2 ≤ ([10, 20] : List ℕ).length ∧
    putNowait 2 ([10, 20] : List ℕ) 30 = [10, 20] ∧
    publishBurst 2 ([] : List ℕ) [7, 8, 9] = [7, 8] :=
  ⟨by decide, (c2_drop_on_full 2 [10, 20] 30 [7, 8, 9] (by decide)).1,
    by rw [(c2_drop_on_full 2 [10, 20] 30 [7, 8, 9] (by decide)).2.1]; decide⟩

/-- C1: the event log assigns sequence index `length + 1` at append time, so
for every sequence of non-suppressed appends the stored indices are exactly
`1, 2, 3, ...` — strictly increasing by one, with no gaps and no reuse —
independent of any channel drops (the index depends only on the log length);
a suppressed call leaves the state unchanged. -/
theorem c1_event_log_indices {Pkg : Type} (s : GuiState Pkg) (sop : String)
    (rev ppr pdr msg_type : Option String) (data : Option Pkg)
    (timestamp : Option String) (time_sec : Option ℚ) (force : Bool)
    (now_str : String) (hInv : indices_ok s.data_list) :
    indices_ok (add_data_item s sop rev ppr pdr msg_type data timestamp
        time_sec force now_str).data_list ∧
    (¬(force = false ∧ s.is_paused = true) →
      (add_data_item s sop rev ppr pdr msg_type data timestamp time_sec force
          now_str).data_list.map (fun d => d.index)
        = s.data_list.map (fun d => d.index) ++ [s.data_list.length + 1]) ∧
    ((force = false ∧ s.is_paused = true) →
      add_data_item s sop rev ppr pdr msg_type data timestamp time_sec force
          now_str = s) := by
  by_cases hc : force = false ∧ s.is_paused = true
  · refine ⟨?_, fun h => absurd hc h, fun _ => by simp [add_data_item, hc]⟩
    simp [add_data_item, hc, hInv]
  · have hlist : (add_data_item s sop rev ppr pdr msg_type data timestamp
        time_sec force now_str).data_list
        = s.data_list ++ [⟨s.data_list.length + 1,
            (match timestamp with
             | none => now_str
             | some t => if t = ("") then now_str else t),
            sop, rev, ppr, pdr, msg_type, data, time_sec⟩] := by
      simp [add_data_item, hc]
    refine ⟨?_, fun _ => ?_, fun h => absurd h hc⟩
    · unfold indices_ok at hInv ⊢
      rw [hlist]
      simp only [List.map_append, List.map_cons, List.map_nil,
        List.length_append, List.length_singleton]
      rw [hInv, range'_snoc]
      simp [Nat.add_comm]
    · rw [hlist]
      simp

theorem c1_event_log_indices_witness :
    indices_ok sampleGuiOpen.data_list ∧
    (add_data_item sampleGuiOpen ("SOP") none none none none none none none
        false ("t")).data_list.map (fun d => d.index) = [1, 2] := by
  have h := c1_event_log_indices sampleGuiOpen ("SOP") none none none none none
    none none false ("t") (by simp [indices_ok, sampleGuiOpen])
  refine ⟨by simp [indices_ok, sampleGuiOpen], ?_⟩
  rw [h.2.1 (by simp [sampleGuiOpen])]
  simp [sampleGuiOpen]

theorem process_general_update_iv (g : RawGeneral) (tc now last : ℚ) :
    (process_general g tc now last).1.update_iv_info
      = decide ((1 : ℚ)/10 ≤ now - last) := rfl

theorem process_general_snd (g : RawGeneral) (tc now last : ℚ) :
    (process_general g tc now last).2
      = if (1 : ℚ)/10 ≤ now - last then now else last := by
  simp [process_general]

theorem run_general_flag_lb :
    ∀ (xs : List (RawGeneral × ℚ × ℚ)) (last : ℚ),
      ∀ p ∈ run_general last xs, p.1.update_iv_info = true →
        (1 : ℚ)/10 ≤ p.2 - last := by
  intro xs
  induction xs with
  | nil => intro last p hp; simp [run_general] at hp
  | cons hd rest ih =>
      obtain ⟨g, tc, now⟩ := hd
      intro last p hp hflag
      simp only [run_general, List.mem_cons] at hp
      rcases hp with rfl | hp'
      · rw [process_general_update_iv, decide_eq_true_eq] at hflag
        simpa using hflag
      · have hih := ih (process_general g tc now last).2 p hp' hflag
        rw [process_general_snd] at hih
        by_cases hcond : (1 : ℚ)/10 ≤ now - last
        · rw [if_pos hcond] at hih
          linarith
        · rw [if_neg hcond] at hih
          linarith

theorem run_general_pairwise :
    ∀ (xs : List (RawGeneral × ℚ × ℚ)) (last : ℚ),
      (run_general last xs).Pairwise (fun a b =>
        a.1.update_iv_info = true → b.1.update_iv_info = true →
          (1 : ℚ)/10 ≤ b.2 - a.2) := by
  intro xs
  induction xs with
  | nil => intro last; simp [run_general]
  | cons hd rest ih =>
      obtain ⟨g, tc, now⟩ := hd
      intro last
      simp only [run_general, List.pairwise_cons]
      refine ⟨?_, ih _⟩
      intro b hb hfa hfb
      have hlb := run_general_flag_lb rest (process_general g tc now last).2 b hb hfb
      rw [process_general_update_iv, decide_eq_true_eq] at hfa
      rw [process_general_snd, if_pos hfa] at hlb
      linarith

/-- C4: every published telemetry sample carries `update_plot = True`
unconditionally; it carries `update_iv_info = True` exactly when at least
100 ms have elapsed since the last summary timestamp, which is then advanced
to the current reading; consequently, over any trace of telemetry
iterations, the rate-limit decision times of any two samples flagged for a
summary update are at least 100 ms apart. -/
theorem c4_summary_rate_limit (g : RawGeneral) (tc now last : ℚ)
    (xs : List (RawGeneral × ℚ × ℚ)) :
    (process_general g tc now last).1.update_plot = true ∧
    ((process_general g tc now last).1.update_iv_info = true ↔
      (1 : ℚ)/10 ≤ now - last) ∧
    ((process_general g tc now last).2
      = if (1 : ℚ)/10 ≤ now - last then now else last) ∧
    (run_general last xs).Pairwise (fun a b =>
      a.1.update_iv_info = true → b.1.update_iv_info = true →
        (1 : ℚ)/10 ≤ b.2 - a.2) := by
  refine ⟨rfl, ?_, process_general_snd g tc now last, run_general_pairwise xs last⟩
  rw [process_general_update_iv]
  exact ⟨of_decide_eq_true, decide_eq_true⟩

/-- C5 counterexample: a protocol record whose `SOP*` sub-field extraction
fails (`sop = none` in `samplePDNoSop`) is NOT published: the whole
iteration is aborted by the outer exception handler, the protocol channel
stays empty and the worker state is unchanged — refuting "a missing or
invalid sub-field ... while the record is still published" for the `SOP*`
sub-field. -/
theorem c5_counterexample :
    data_collection_step 0 sampleWorker (.pd samplePDNoSop) 10 10
      = sampleWorker ∧
    (data_collection_step 0 sampleWorker (.pd samplePDNoSop) 10 10).data_queue
      = [] := by
  constructor <;> decide

/-- C5 (amended): per-field decode faults never abort the containing record
EXCEPT for the unguarded `SOP*` extraction of a protocol record: every
malformed numeric field of a telemetry sample degrades to zero for that
field only and the sample is still offered to the telemetry channel, and a
missing or invalid `rev`/`ppr`/`pdr`/`msg_type` sub-field of a protocol
record maps to an empty value while the record is still offered to the
protocol channel — provided its `SOP*` extraction succeeded (a failed
`SOP*` extraction aborts the record, see the counterexample). -/
theorem c5_field_fault_tolerance {Pkg : Type} (g : RawGeneral)
    (s : WorkerState Pkg) (p : RawPD Pkg) (tc now : ℚ) (sopv : String)
    (hs : p.sop = some sopv) :
    (process_general g tc now s.last_general_timestamp).1.current
        = g.Current.getD 0 ∧
    (process_general g tc now s.last_general_timestamp).1.voltage
        = g.VBus.getD 0 ∧
    (process_general g tc now s.last_general_timestamp).1.cc1 = g.CC1.getD 0 ∧
    (process_general g tc now s.last_general_timestamp).1.cc2 = g.CC2.getD 0 ∧
    (process_general g tc now s.last_general_timestamp).1.dp = g.Dp.getD 0 ∧
    (process_general g tc now s.last_general_timestamp).1.dn = g.Dn.getD 0 ∧
    (data_collection_step 0 s (.general g) tc now).iv_queue
        = putNowait iv_queue_maxsize s.iv_queue
            (process_general g tc now s.last_general_timestamp).1 ∧
    (data_collection_step 0 s (.pd p) tc now).data_queue
        = putNowait data_queue_maxsize s.data_queue
            (.pd ⟨p.timestamp_str, tc, sopv, decode_rev p.rev_raw, p.ppr,
                  p.pdr, p.msg_type, p.pkg, p.is_pdo, p.is_rdo,
                  (if p.is_pdo then some p.pkg else s.last_pdo),
                  (if p.is_rdo then some p.pkg else s.last_rdo)⟩) := by
  refine ⟨rfl, rfl, rfl, rfl, rfl, rfl, rfl, ?_⟩
  cases p with
  | mk ts sop rev ppr pdr mt pkg ipdo irdo =>
      cases hs
      simp [data_collection_step]

theorem c5_field_fault_tolerance_witness :
    samplePD.sop = some ("SOP") ∧
    (process_general sampleGeneralBad 10 10
        sampleWorker.last_general_timestamp).1.voltage = 0 ∧
    (data_collection_step 0 sampleWorker (.general sampleGeneralBad) 10 10).iv_queue
      = [(process_general sampleGeneralBad 10 10
            sampleWorker.last_general_timestamp).1] := by
  have h := c5_field_fault_tolerance sampleGeneralBad sampleWorker samplePD
    10 10 ("SOP") rfl
  refine ⟨rfl, ?_, ?_⟩
  · rw [h.2.1]; rfl
  · rw [h.2.2.2.2.2.2.1]
    simp [putNowait, iv_queue_maxsize, sampleWorker]

/-- C9: while the pause flag is set (`pause_flag.value == 1`), a protocol
record is discarded without publishing and without touching the tracked
capability/request references (the worker state is unchanged), whereas a
telemetry record is processed identically for every value of the pause
flag — telemetry is never suppressed by pause. -/
theorem c9_pause_suppresses_protocol_only {Pkg : Type} (s : WorkerState Pkg)
    (p : RawPD Pkg) (g : RawGeneral) (tc now : ℚ) (pf pf' : ℤ) :
    data_collection_step 1 s (.pd p) tc now = s ∧
    data_collection_step pf s (.general g) tc now
      = data_collection_step pf' s (.general g) tc now := by
  constructor
  · simp [data_collection_step]
  · rfl

/-- C7: a full plot reset clears the time/voltage/current buffers and all
markers and re-arms the relative-time baseline; the baseline is then
established exactly at the first appended sample, whose stored relative time
is `0`, and every subsequent sample is stored at its absolute capture time
minus that baseline, with the baseline unchanged. -/
theorem c7_reset_and_baseline (s s' : PlotState) (b t v i t' v' i' : ℚ)
    (hb : s'.plot_start_time = some b) :
    reset_plot s = sampleEmptyPlot ∧
    (append_plot_point (reset_plot s) t v i).plot_start_time = some t ∧
    (append_plot_point (reset_plot s) t v i).plot_times = [0] ∧
    (append_plot_point (reset_plot s) t v i).plot_voltage = [v] ∧
    (append_plot_point (reset_plot s) t v i).plot_current = [i] ∧
    (append_plot_point s' t' v' i').plot_start_time = some b ∧
    (append_plot_point s' t' v' i').plot_times
      = dequeAppend plot_maxlen s'.plot_times (t' - b) := by
  refine ⟨rfl, rfl, ?_, ?_, ?_, ?_, ?_⟩
  · simp [append_plot_point, reset_plot, dequeAppend, plot_maxlen]
  · simp [append_plot_point, reset_plot, dequeAppend, plot_maxlen]
  · simp [append_plot_point, reset_plot, dequeAppend, plot_maxlen]
  · simp [append_plot_point, hb]
  · simp [append_plot_point, hb]

theorem c7_reset_and_baseline_witness :
    (append_plot_point sampleEmptyPlot 7 5 1).plot_start_time = some 7 ∧
    (append_plot_point sampleEmptyPlot 7 5 1).plot_times = [0] ∧
    (append_plot_point (append_plot_point sampleEmptyPlot 7 5 1) 9 6 1).plot_times
      = [0, 2] := by
  have h := c7_reset_and_baseline sampleEmptyPlot
    (append_plot_point sampleEmptyPlot 7 5 1) 7 7 5 1 9 6 1 rfl
  refine ⟨by rw [show append_plot_point sampleEmptyPlot 7 5 1
      = append_plot_point (reset_plot sampleEmptyPlot) 7 5 1 from rfl, h.2.1],
    by rw [show append_plot_point sampleEmptyPlot 7 5 1
      = append_plot_point (reset_plot sampleEmptyPlot) 7 5 1 from rfl, h.2.2.1],
    ?_⟩
  rw [h.2.2.2.2.2.2]
  norm_num [append_plot_point, sampleEmptyPlot, dequeAppend, plot_maxlen]

/-- C10: a capability or request marker arriving while the relative-time
baseline is unset (`plot_start_time = None`, i.e. before the first telemetry
sample since the last reset) is silently dropped: the marker log — indeed
the whole plot state — is left unchanged. -/
theorem c10_marker_before_baseline (s : PlotState) (t : ℚ) (kind : String)
    (h : s.plot_start_time = none) :
    append_marker_event s t kind = s ∧
    (append_marker_event s t kind).marker_events = s.marker_events := by
  have he : append_marker_event s t kind = s := by
    simp [append_marker_event, h]
  exact ⟨he, by rw [he]⟩

theorem c10_marker_before_baseline_witness :
    sampleEmptyPlot.plot_start_time = none ∧
    append_marker_event sampleEmptyPlot 5 ("pdo") = sampleEmptyPlot :=
  ⟨rfl, (c10_marker_before_baseline sampleEmptyPlot 5 ("pdo") rfl).1⟩

/-- C6: a read failure whose text contains `'read error'`
(case-insensitively) makes the worker publish the terminal
`device_disconnected` sentinel to the protocol channel and exit its loop,
while any other error leaves all state unchanged and retries; the consumer
dispatches that sentinel to the disconnect handler, which closes the
connection (device no longer open, collection paused, handshake flags
cleared) and clears the tracked last-capability and last-request
references. -/
theorem c6_read_error_teardown {Pkg : Type} (err err2 : String)
    (s : WorkerState Pkg) (g : GuiState Pkg) (now_str : String)
    (h : containsSub (("read error").toList) (err.toList.map Char.toLower) = true)
    (h2 : containsSub (("read error").toList) (err2.toList.map Char.toLower) = false) :
    worker_on_exception err s =
      ({ s with data_queue := putNowait data_queue_maxsize s.data_queue
                  (.err ("device_disconnected")) }, true) ∧
    worker_on_exception err2 s = (s, false) ∧
    consume_one g (.fromDataQueue (.err ("device_disconnected"))) now_str
      = handle_device_disconnect g ∧
    (handle_device_disconnect g).device_open = false ∧
    (handle_device_disconnect g).is_paused = true ∧
    (handle_device_disconnect g).awaiting_connection_ack = false ∧
    (handle_device_disconnect g).last_pdo = none ∧
    (handle_device_disconnect g).last_rdo = none := by
  refine ⟨?_, ?_, ?_, rfl, rfl, rfl, rfl, rfl⟩
  · unfold worker_on_exception classify_read_error
    rw [if_pos h]
  · unfold worker_on_exception classify_read_error
    rw [if_neg (by simpa using h2)]
  · simp [consume_one]

theorem c6_read_error_teardown_witness :
    containsSub (("read error").toList)
      (("USB Read Error").toList.map Char.toLower) = true ∧
    containsSub (("read error").toList)
      (("timed out").toList.map Char.toLower) = false ∧
    (worker_on_exception ("USB Read Error") sampleWorker).2 = true ∧
    worker_on_exception ("timed out") sampleWorker = (sampleWorker, false) ∧
    (handle_device_disconnect sampleGuiOpen).last_pdo = none := by
  have h := c6_read_error_teardown ("USB Read Error") ("timed out")
    sampleWorker sampleGuiOpen ("t") (by decide) (by decide)
  refine ⟨by decide, by decide, ?_, h.2.1, h.2.2.2.2.2.2.1⟩
  rw [h.1]

@[simp] theorem add_data_item_awaiting {Pkg : Type} (s : GuiState Pkg)
    (sop : String) (rev ppr pdr msg_type : Option String) (data : Option Pkg)
    (timestamp : Option String) (time_sec : Option ℚ) (force : Bool)
    (now_str : String) :
    (add_data_item s sop rev ppr pdr msg_type data timestamp time_sec force
        now_str).awaiting_connection_ack = s.awaiting_connection_ack := by
  unfold add_data_item; split <;> rfl

@[simp] theorem add_data_item_is_paused {Pkg : Type} (s : GuiState Pkg)
    (sop : String) (rev ppr pdr msg_type : Option String) (data : Option Pkg)
    (timestamp : Option String) (time_sec : Option ℚ) (force : Bool)
    (now_str : String) :
    (add_data_item s sop rev ppr pdr msg_type data timestamp time_sec force
        now_str).is_paused = s.is_paused := by
  unfold add_data_item; split <;> rfl

@[simp] theorem add_data_item_pause_flag {Pkg : Type} (s : GuiState Pkg)
    (sop : String) (rev ppr pdr msg_type : Option String) (data : Option Pkg)
    (timestamp : Option String) (time_sec : Option ℚ) (force : Bool)
    (now_str : String) :
    (add_data_item s sop rev ppr pdr msg_type data timestamp time_sec force
        now_str).pause_flag = s.pause_flag := by
  unfold add_data_item; split <;> rfl

theorem connection_ack_of_not {Pkg : Type} (s : GuiState Pkg)
    (h : ¬(s.device_open = true ∧ s.awaiting_connection_ack = true)) :
    connection_ack s = s := by
  simp only [connection_ack, if_neg h]

theorem connection_ack_spec {Pkg : Type} (s : GuiState Pkg)
    (hopen : s.device_open = true) (hawait : s.awaiting_connection_ack = true) :
    (connection_ack s).awaiting_connection_ack = false ∧
    (s.autostart_after_connect = true →
      (connection_ack s).is_paused = false ∧
      (connection_ack s).pause_flag = s.pause_flag.map (fun _ => (0 : ℤ))) := by
  by_cases hauto : s.autostart_after_connect = true
  · refine ⟨?_, fun _ => ⟨?_, ?_⟩⟩ <;>
      cases hpf : s.pause_flag <;>
        simp [connection_ack, hopen, hawait, hauto, hpf]
  · simp [connection_ack, hopen, hawait, hauto]

theorem consume_one_acks {Pkg : Type} (s : GuiState Pkg)
    (it : ConsumedItem Pkg) (now_str : String)
    (hopen : s.device_open = true) (hawait : s.awaiting_connection_ack = true)
    (herr : isErrItem it = false) :
    (consume_one s it now_str).awaiting_connection_ack = false ∧
    (s.autostart_after_connect = true →
      (consume_one s it now_str).is_paused = false ∧
      (consume_one s it now_str).pause_flag
        = s.pause_flag.map (fun _ => (0 : ℤ))) := by
  have hca := connection_ack_spec s hopen hawait
  cases it with
  | fromDataQueue q =>
      cases q with
      | err e => simp [isErrItem] at herr
      | pd d =>
          constructor
          · by_cases hpdo : d.is_pdo <;> by_cases hrdo : d.is_rdo <;>
              simp [consume_one, hpdo, hrdo, hca.1]
          · intro hauto
            obtain ⟨hip, hpf⟩ := hca.2 hauto
            constructor <;>
              (by_cases hpdo : d.is_pdo <;> by_cases hrdo : d.is_rdo <;>
                simp [consume_one, hpdo, hrdo, hip, hpf])
  | fromIvQueue d =>
      constructor
      · by_cases hup : d.update_plot <;> simp [consume_one, hup, hca.1]
      · intro hauto
        obtain ⟨hip, hpf⟩ := hca.2 hauto
        constructor <;>
          (by_cases hup : d.update_plot <;> simp [consume_one, hup, hip, hpf])

theorem consume_one_preserves_no_ack {Pkg : Type} (s : GuiState Pkg)
    (it : ConsumedItem Pkg) (now_str : String)
    (h : s.awaiting_connection_ack = false) :
    (consume_one s it now_str).awaiting_connection_ack = false := by
  cases it with
  | fromDataQueue q =>
      cases q with
      | err e =>
          simp only [consume_one]
          split_ifs <;>
            simp [handle_device_disconnect, handle_connection_failed, h]
      | pd d =>
          have hca : connection_ack s = s :=
            connection_ack_of_not s (by simp [h])
          by_cases hpdo : d.is_pdo <;> by_cases hrdo : d.is_rdo <;>
            simp [consume_one, hca, hpdo, hrdo, h]
  | fromIvQueue d =>
      have hca : connection_ack s = s :=
        connection_ack_of_not s (by simp [h])
      by_cases hup : d.update_plot <;> simp [consume_one, hca, hup, h]

theorem ack_count_of_no_ack {Pkg : Type} (now_str : String) :
    ∀ (items : List (ConsumedItem Pkg)) (s : GuiState Pkg),
      s.awaiting_connection_ack = false → ack_count now_str s items = 0 := by
  intro items
  induction items with
  | nil => intro s _; rfl
  | cons it rest ih =>
      intro s h
      have hfires : ack_fires s it = false := by
        simp [ack_fires, h]
      simp [ack_count, hfires,
        ih (consume_one s it now_str) (consume_one_preserves_no_ack s it now_str h)]

/-- C3: while the connection awaits acknowledgement after opening, the first
non-error item consumed from either channel fires the acknowledgement
transition — clearing the awaiting flag and, when auto-start was requested,
resuming collection (clearing the pause state and writing 0 to the shared
pause flag) — and the transition fires exactly once over the whole consumed
sequence: no later item re-triggers it. -/
theorem c3_first_item_acks_once {Pkg : Type} (s : GuiState Pkg)
    (it : ConsumedItem Pkg) (items : List (ConsumedItem Pkg))
    (now_str : String) (hopen : s.device_open = true)
    (hawait : s.awaiting_connection_ack = true)
    (herr : isErrItem it = false) :
    ack_fires s it = true ∧
    (consume_one s it now_str).awaiting_connection_ack = false ∧
    (s.autostart_after_connect = true →
      (consume_one s it now_str).is_paused = false ∧
      (consume_one s it now_str).pause_flag
        = s.pause_flag.map (fun _ => (0 : ℤ))) ∧
    ack_count now_str s (it :: items) = 1 := by
  have hacks := consume_one_acks s it now_str hopen hawait herr
  have hfires : ack_fires s it = true := by
    simp [ack_fires, herr, hopen, hawait]
  refine ⟨hfires, hacks.1, hacks.2, ?_⟩
  simp [ack_count, hfires,
    ack_count_of_no_ack now_str items (consume_one s it now_str) hacks.1]

theorem c3_first_item_acks_once_witness :
    sampleGuiAwaiting.device_open = true ∧
    sampleGuiAwaiting.awaiting_connection_ack = true ∧
    isErrItem (ConsumedItem.fromIvQueue sampleIV : ConsumedItem ℕ) = false ∧
    (consume_one sampleGuiAwaiting (.fromIvQueue sampleIV)
        ("t")).awaiting_connection_ack = false ∧
    (consume_one sampleGuiAwaiting (.fromIvQueue sampleIV) ("t")).is_paused
      = false ∧
    ack_count ("t") sampleGuiAwaiting [ConsumedItem.fromIvQueue sampleIV] = 1 := by
  have h := c3_first_item_acks_once sampleGuiAwaiting (.fromIvQueue sampleIV)
    [] ("t") rfl rfl rfl
  exact ⟨rfl, rfl, rfl, h.2.1, (h.2.2.1 rfl).1, h.2.2.2⟩

/-- C8: the minimum refresh interval is the step function of the event
count given by the five bands; at most one deferred refresh is ever
outstanding (the pending/outstanding invariant is preserved by every check
tick and every deferred-refresh firing); and a count change arriving before
the interval has elapsed, with no refresh pending, schedules exactly one
deferred refresh for the remaining wait, while any tick arriving with a
refresh already pending schedules nothing (coalescing). -/
theorem c8_refresh_scheduler (s : SchedState) (now : ℚ) (count : ℕ)
    (hInv : schedInv s) :
    (count < 1000 → minInterval count = 1/10) ∧
    (1000 ≤ count → count < 5000 → minInterval count = 3/10) ∧
    (5000 ≤ count → count < 10000 → minInterval count = 1/2) ∧
    (10000 ≤ count → count < 20000 → minInterval count = 1) ∧
    (20000 ≤ count → minInterval count = 2) ∧
    s.outstanding ≤ 1 ∧
    schedInv (refresh_check_tick s now count).1 ∧
    schedInv (delayed_update_treeview s now) ∧
    (count ≠ s.last_data_count →
      now - s.last_treeview_update_time < minInterval count →
      s.pending_treeview_update = false →
      refresh_check_tick s now count =
        ({ s with pending_treeview_update := true,
                  outstanding := s.outstanding + 1 },
         some (Int.toNat
           ⌊(minInterval count - (now - s.last_treeview_update_time)) * 1000⌋))) ∧
    (s.pending_treeview_update = true →
      (refresh_check_tick s now count).2 = none) := by
  refine ⟨?_, ?_, ?_, ?_, ?_, ?_, ?_, ?_, ?_, ?_⟩
  · intro h; simp [minInterval, h]
  · intro h1 h2
    have e1 : ¬count < 1000 := by omega
    simp [minInterval, e1, h2]
  · intro h1 h2
    have e1 : ¬count < 1000 := by omega
    have e2 : ¬count < 5000 := by omega
    simp [minInterval, e1, e2, h2]
  · intro h1 h2
    have e1 : ¬count < 1000 := by omega
    have e2 : ¬count < 5000 := by omega
    have e3 : ¬count < 10000 := by omega
    simp [minInterval, e1, e2, e3, h2]
  · intro h1
    have e1 : ¬count < 1000 := by omega
    have e2 : ¬count < 5000 := by omega
    have e3 : ¬count < 10000 := by omega
    have e4 : ¬count < 20000 := by omega
    simp [minInterval, e1, e2, e3, e4]
  · unfold schedInv at hInv
    by_cases hp : s.pending_treeview_update <;> simp [hp] at hInv <;> omega
  · unfold schedInv at hInv ⊢
    unfold refresh_check_tick
    by_cases h1 : count ≠ s.last_data_count
    · rw [if_pos h1]
      by_cases h2 : minInterval count ≤ now - s.last_treeview_update_time
      · rw [if_pos h2]; simpa using hInv
      · rw [if_neg h2]
        by_cases h3 : s.pending_treeview_update = false
        · rw [if_pos h3]
          simp [h3] at hInv
          simp [hInv]
        · rw [if_neg h3]; exact hInv
    · rw [if_neg h1]; exact hInv
  · unfold schedInv at hInv ⊢
    unfold delayed_update_treeview
    by_cases hp : s.pending_treeview_update <;> simp [hp] at hInv ⊢ <;> omega
  · intro hc hlt hp
    unfold refresh_check_tick
    rw [if_pos hc, if_neg (not_le.mpr hlt), if_pos hp]
  · intro hp
    unfold refresh_check_tick
    by_cases h1 : count ≠ s.last_data_count
    · rw [if_pos h1]
      by_cases h2 : minInterval count ≤ now - s.last_treeview_update_time
      · rw [if_pos h2]
      · rw [if_neg h2, if_neg (by simp [hp])]
    · rw [if_neg h1]

theorem c8_refresh_scheduler_witness :
    schedInv sampleSched ∧
    minInterval 50 = 1/10 ∧
    sampleSched.outstanding ≤ 1 ∧
    schedInv (refresh_check_tick sampleSched 10 50).1 := by
  have h := c8_refresh_scheduler sampleSched 10 50 rfl
  exact ⟨rfl, h.1 (by norm_num), h.2.2.2.2.2.1, h.2.2.2.2.2.2.1⟩

end Witrn
